import Mathlib

set_option maxRecDepth 8000
set_option maxHeartbeats 1000000

/-!
Shallow embedding of the physical-unit subsystem of the `ome-metadata` repository
(src/src/ome.rs lines 2442-3022, src/src/error.rs).

Numeric modelling: Rust `f64` values are modelled as exact rationals (`Rat`);
every `f64` literal of the source becomes the decimal rational it denotes.
Rust `anyhow::Result<f64>` becomes `Except Error Rat`, where the combined
`Error` type below covers both the typed enum of src/src/error.rs and the
ad-hoc `anyhow!("...")` string errors actually used by the conversion code.
-/

/-- Combined error universe. The constructors `io`, `serdeXml`, `sizeOfUnknown` and
`temparatureConversion` (sic) transcribe the `Error` enum of src/src/error.rs;
`adHoc` models an `anyhow!(msg)` string error (the only kind the conversion code
constructs); `unknownUnit` models the parse failure of spec §7 (`UnknownUnit(raw)`),
since the derive-generated parser is not part of the repository sources. -/
inductive Error where
  | io : String → Error
  | serdeXml : String → Error
  | sizeOfUnknown : String → Error
  | temparatureConversion : Error
  | adHoc : String → Error
  | unknownUnit : String → Error
deriving DecidableEq, Repr

/-- Rust `anyhow::Result<T>` as used throughout the conversion subsystem. -/
abbrev Result (α : Type) : Type := Except Error α

/-- Boolean success test on results (counterpart of `Result::is_ok`). -/
def Except.isErr {ε α : Type} : Except ε α → Bool
  | .ok _ => false
  | .error _ => true

instance {ε α : Type} [DecidableEq ε] [DecidableEq α] : DecidableEq (Except ε α) := fun a b =>
  match a, b with
  | .ok x, .ok y => if h : x = y then .isTrue (by rw [h]) else .isFalse (by simp [h])
  | .error x, .error y => if h : x = y then .isTrue (by rw [h]) else .isFalse (by simp [h])
  | .ok _, .error _ => .isFalse (by simp)
  | .error _, .ok _ => .isFalse (by simp)

/-- Unit enum `UnitsElectricPotential` (src/src/ome.rs:2482-2503), constructors in declaration order. -/
inductive UnitsElectricPotential where
  | YV
  | ZV
  | EV
  | PV
  | TV
  | GV
  | MV
  | kV
  | hV
  | daV
  | V
  | dV
  | cV
  | mV
  | uV
  | nV
  | pV
  | fV
  | aV
  | zV
  | yV
deriving DecidableEq, Repr

/-- Unit enum `UnitsFrequency` (src/src/ome.rs:2504-2528), constructors in declaration order. -/
inductive UnitsFrequency where
  | YHz
  | ZHz
  | EHz
  | PHz
  | THz
  | GHz
  | MHz
  | kHz
  | hHz
  | daHz
  | Hz
  | dHz
  | cHz
  | mHz
  | uHz
  | nHz
  | pHz
  | fHz
  | aHz
  | zHz
  | yHz
deriving DecidableEq, Repr

/-- Unit enum `UnitsLength` (src/src/ome.rs:2529-2579), constructors in declaration order. -/
inductive UnitsLength where
  | Ym
  | Zm
  | Em
  | Pm
  | Tm
  | Gm
  | Mm
  | km
  | hm
  | dam
  | m
  | dm
  | cm
  | mm
  | um
  | nm
  | pm
  | fm
  | am
  | zm
  | ym
  | A
  | Thou
  | Li
  | In
  | Ft
  | Yd
  | Mi
  | Ua
  | Ly
  | Pc
  | Pt
  | Pixel
  | ReferenceFrame
deriving DecidableEq, Repr

/-- Unit enum `UnitsPower` (src/src/ome.rs:2580-2604), constructors in declaration order. -/
inductive UnitsPower where
  | YW
  | ZW
  | EW
  | PW
  | TW
  | GW
  | MW
  | kW
  | hW
  | daW
  | W
  | dW
  | cW
  | mW
  | uW
  | nW
  | pW
  | fW
  | aW
  | zW
  | yW
deriving DecidableEq, Repr

/-- Unit enum `UnitsPressure` (src/src/ome.rs:2605-2641), constructors in declaration order. -/
inductive UnitsPressure where
  | YPa
  | ZPa
  | EPa
  | PPa
  | TPa
  | GPa
  | MPa
  | kPa
  | hPa
  | daPa
  | Pa
  | dPa
  | cPa
  | mPa
  | uPa
  | nPa
  | pPa
  | fPa
  | aPa
  | zPa
  | yPa
  | bar
  | Mbar
  | kbar
  | dbar
  | cbar
  | mbar
  | atm
  | psi
  | Torr
  | mTorr
  | mmHg
deriving DecidableEq, Repr

/-- Unit enum `UnitsTemperature` (src/src/ome.rs:2642-2652), constructors in declaration order. -/
inductive UnitsTemperature where
  | C
  | F
  | K
  | R
deriving DecidableEq, Repr

/-- Unit enum `UnitsTime` (src/src/ome.rs:2653-2680), constructors in declaration order. -/
inductive UnitsTime where
  | Ys
  | Zs
  | Es
  | Ps
  | Ts
  | Gs
  | Ms
  | ks
  | hs
  | das
  | s
  | ds
  | cs
  | ms
  | us
  | ns
  | ps
  | fs
  | as
  | zs
  | ys
  | min
  | h
  | d
deriving DecidableEq, Repr

/-- All variants of `UnitsElectricPotential` in declaration order
(the `variants()` method generated by `impl_enum_variants!`, src/src/ome.rs:2777-2798,
collecting the `IterVariants` iterator). -/
def UnitsElectricPotential.variants : List UnitsElectricPotential :=
  [.YV, .ZV, .EV, .PV, .TV, .GV, .MV, .kV, .hV, .daV, .V, .dV, .cV, .mV, .uV, .nV, .pV, .fV, .aV, .zV, .yV]

/-- All variants of `UnitsFrequency` in declaration order
(the `variants()` method generated by `impl_enum_variants!`, src/src/ome.rs:2777-2798,
collecting the `IterVariants` iterator). -/
def UnitsFrequency.variants : List UnitsFrequency :=
  [.YHz, .ZHz, .EHz, .PHz, .THz, .GHz, .MHz, .kHz, .hHz, .daHz, .Hz, .dHz, .cHz, .mHz, .uHz, .nHz, .pHz, .fHz, .aHz, .zHz, .yHz]

/-- All variants of `UnitsLength` in declaration order
(the `variants()` method generated by `impl_enum_variants!`, src/src/ome.rs:2777-2798,
collecting the `IterVariants` iterator). -/
def UnitsLength.variants : List UnitsLength :=
  [.Ym, .Zm, .Em, .Pm, .Tm, .Gm, .Mm, .km, .hm, .dam, .m, .dm, .cm, .mm, .um, .nm, .pm, .fm, .am, .zm, .ym, .A, .Thou, .Li, .In, .Ft, .Yd, .Mi, .Ua, .Ly, .Pc, .Pt, .Pixel, .ReferenceFrame]

/-- All variants of `UnitsPower` in declaration order
(the `variants()` method generated by `impl_enum_variants!`, src/src/ome.rs:2777-2798,
collecting the `IterVariants` iterator). -/
def UnitsPower.variants : List UnitsPower :=
  [.YW, .ZW, .EW, .PW, .TW, .GW, .MW, .kW, .hW, .daW, .W, .dW, .cW, .mW, .uW, .nW, .pW, .fW, .aW, .zW, .yW]

/-- All variants of `UnitsPressure` in declaration order
(the `variants()` method generated by `impl_enum_variants!`, src/src/ome.rs:2777-2798,
collecting the `IterVariants` iterator). -/
def UnitsPressure.variants : List UnitsPressure :=
  [.YPa, .ZPa, .EPa, .PPa, .TPa, .GPa, .MPa, .kPa, .hPa, .daPa, .Pa, .dPa, .cPa, .mPa, .uPa, .nPa, .pPa, .fPa, .aPa, .zPa, .yPa, .bar, .Mbar, .kbar, .dbar, .cbar, .mbar, .atm, .psi, .Torr, .mTorr, .mmHg]

/-- All variants of `UnitsTemperature` in declaration order
(the `variants()` method generated by `impl_enum_variants!`, src/src/ome.rs:2777-2798,
collecting the `IterVariants` iterator). -/
def UnitsTemperature.variants : List UnitsTemperature :=
  [.C, .F, .K, .R]

/-- All variants of `UnitsTime` in declaration order
(the `variants()` method generated by `impl_enum_variants!`, src/src/ome.rs:2777-2798,
collecting the `IterVariants` iterator). -/
def UnitsTime.variants : List UnitsTime :=
  [.Ys, .Zs, .Es, .Ps, .Ts, .Gs, .Ms, .ks, .hs, .das, .s, .ds, .cs, .ms, .us, .ns, .ps, .fs, .as, .zs, .ys, .min, .h, .d]

/-- Conversion factor between this unit and the SI value
(`<UnitsElectricPotential as Convert>::as_si`, src/src/ome.rs:2800-2826). -/
def UnitsElectricPotential.as_si : UnitsElectricPotential → Result Rat
  | .YV => .ok 1e24
  | .ZV => .ok 1e21
  | .EV => .ok 1e18
  | .PV => .ok 1e15
  | .TV => .ok 1e12
  | .GV => .ok 1e9
  | .MV => .ok 1e6
  | .kV => .ok 1e3
  | .hV => .ok 1e2
  | .daV => .ok 1e1
  | .V => .ok 1e0
  | .dV => .ok 1e-1
  | .cV => .ok 1e-2
  | .mV => .ok 1e-3
  | .uV => .ok 1e-6
  | .nV => .ok 1e-9
  | .pV => .ok 1e-12
  | .fV => .ok 1e-15
  | .aV => .ok 1e-18
  | .zV => .ok 1e-21
  | .yV => .ok 1e-24

/-- Conversion factor between this unit and the SI value
(`<UnitsFrequency as Convert>::as_si`, src/src/ome.rs:2828-2854). -/
def UnitsFrequency.as_si : UnitsFrequency → Result Rat
  | .YHz => .ok 1e24
  | .ZHz => .ok 1e21
  | .EHz => .ok 1e18
  | .PHz => .ok 1e15
  | .THz => .ok 1e12
  | .GHz => .ok 1e9
  | .MHz => .ok 1e6
  | .kHz => .ok 1e3
  | .hHz => .ok 1e2
  | .daHz => .ok 1e1
  | .Hz => .ok 1e0
  | .dHz => .ok 1e-1
  | .cHz => .ok 1e-2
  | .mHz => .ok 1e-3
  | .uHz => .ok 1e-6
  | .nHz => .ok 1e-9
  | .pHz => .ok 1e-12
  | .fHz => .ok 1e-15
  | .aHz => .ok 1e-18
  | .zHz => .ok 1e-21
  | .yHz => .ok 1e-24

/-- Conversion factor between this unit and the SI value
(`<UnitsLength as Convert>::as_si`, src/src/ome.rs:2856-2895). -/
def UnitsLength.as_si : UnitsLength → Result Rat
  | .Ym => .ok 1e24
  | .Zm => .ok 1e21
  | .Em => .ok 1e18
  | .Pm => .ok 1e15
  | .Tm => .ok 1e12
  | .Gm => .ok 1e9
  | .Mm => .ok 1e6
  | .km => .ok 1e3
  | .hm => .ok 1e2
  | .dam => .ok 1e1
  | .m => .ok 1e0
  | .dm => .ok 1e-1
  | .cm => .ok 1e-2
  | .mm => .ok 1e-3
  | .um => .ok 1e-6
  | .nm => .ok 1e-9
  | .pm => .ok 1e-12
  | .fm => .ok 1e-15
  | .am => .ok 1e-18
  | .zm => .ok 1e-21
  | .ym => .ok 1e-24
  | .A => .ok 1e-10
  | .Thou => .ok 2.54e-5
  | .Li => .ok 5e2
  | .In => .ok 2.54e-2
  | .Ft => .ok 3.05e-1
  | .Yd => .ok 9.14e-1
  | .Mi => .ok 1.609344e3
  | .Ua => .ok 1.496e11
  | .Ly => .ok 9.461e15
  | .Pc => .ok 3.086e16
  | .Pt => .ok 3.52778e-4
  | .Pixel => .error (.adHoc "Size of pixel is unknown")
  | .ReferenceFrame => .error (.adHoc "Size of reference frame is unknown")

/-- Conversion factor between this unit and the SI value
(`<UnitsPower as Convert>::as_si`, src/src/ome.rs:2897-2923). -/
def UnitsPower.as_si : UnitsPower → Result Rat
  | .YW => .ok 1e24
  | .ZW => .ok 1e21
  | .EW => .ok 1e18
  | .PW => .ok 1e15
  | .TW => .ok 1e12
  | .GW => .ok 1e9
  | .MW => .ok 1e6
  | .kW => .ok 1e3
  | .hW => .ok 1e2
  | .daW => .ok 1e1
  | .W => .ok 1e0
  | .dW => .ok 1e-1
  | .cW => .ok 1e-2
  | .mW => .ok 1e-3
  | .uW => .ok 1e-6
  | .nW => .ok 1e-9
  | .pW => .ok 1e-12
  | .fW => .ok 1e-15
  | .aW => .ok 1e-18
  | .zW => .ok 1e-21
  | .yW => .ok 1e-24

/-- Conversion factor between this unit and the SI value
(`<UnitsPressure as Convert>::as_si`, src/src/ome.rs:2925-2962). -/
def UnitsPressure.as_si : UnitsPressure → Result Rat
  | .YPa => .ok 1e24
  | .ZPa => .ok 1e21
  | .EPa => .ok 1e18
  | .PPa => .ok 1e15
  | .TPa => .ok 1e12
  | .GPa => .ok 1e9
  | .MPa => .ok 1e6
  | .kPa => .ok 1e3
  | .hPa => .ok 1e2
  | .daPa => .ok 1e1
  | .Pa => .ok 1e0
  | .dPa => .ok 1e-1
  | .cPa => .ok 1e-2
  | .mPa => .ok 1e-3
  | .uPa => .ok 1e-6
  | .nPa => .ok 1e-9
  | .pPa => .ok 1e-12
  | .fPa => .ok 1e-15
  | .aPa => .ok 1e-18
  | .zPa => .ok 1e-21
  | .yPa => .ok 1e-24
  | .bar => .ok 1e5
  | .Mbar => .ok 1e11
  | .kbar => .ok 1e8
  | .dbar => .ok 1e4
  | .cbar => .ok 1e3
  | .mbar => .ok 1e2
  | .atm => .ok 1.01325e5
  | .psi => .ok 6.89476e3
  | .Torr => .ok 1.33322e3
  | .mTorr => .ok 1.33322
  | .mmHg => .ok 1.33322e2

/-- Conversion factor between this unit and the SI value
(`<UnitsTemperature as Convert>::as_si`, src/src/ome.rs:2964-2972). -/
def UnitsTemperature.as_si : UnitsTemperature → Result Rat
  | .C => .error (.adHoc "No conversion to K by multiplication only")
  | .F => .error (.adHoc "No conversion to K by multiplication only")
  | .K => .ok 1e1
  | .R => .ok (5 / 9)

/-- Conversion factor between this unit and the SI value
(`<UnitsTime as Convert>::as_si`, src/src/ome.rs:2993-3022). -/
def UnitsTime.as_si : UnitsTime → Result Rat
  | .Ys => .ok 1e24
  | .Zs => .ok 1e21
  | .Es => .ok 1e18
  | .Ps => .ok 1e15
  | .Ts => .ok 1e12
  | .Gs => .ok 1e9
  | .Ms => .ok 1e6
  | .ks => .ok 1e3
  | .hs => .ok 1e2
  | .das => .ok 1e1
  | .s => .ok 1e0
  | .ds => .ok 1e-1
  | .cs => .ok 1e-2
  | .ms => .ok 1e-3
  | .us => .ok 1e-6
  | .ns => .ok 1e-9
  | .ps => .ok 1e-12
  | .fs => .ok 1e-15
  | .as => .ok 1e-18
  | .zs => .ok 1e-21
  | .ys => .ok 1e-24
  | .min => .ok 6e1
  | .h => .ok 3.6e2
  | .d => .ok 8.64e4

/-- Default body of the `Convert` trait's `convert` method (src/src/ome.rs:2768-2774):
identity short-circuit, otherwise `value * self.as_si()? / unit.as_si()?` with the
`?` operator translated to explicit matches on the two `Result`s. -/
def convertDefault {α : Type} [DecidableEq α] (si : α → Result Rat) (self unit : α)
    (value : Rat) : Result Rat :=
  if self = unit then
    .ok value
  else
    match si self with
    | .error e => .error e
    | .ok a =>
      match si unit with
      | .error e => .error e
      | .ok b => .ok (value * a / b)

/-- `UnitsElectricPotential` uses the trait-default multiplicative `convert`. -/
def UnitsElectricPotential.convert : UnitsElectricPotential → UnitsElectricPotential → Rat → Result Rat :=
  convertDefault UnitsElectricPotential.as_si

/-- `UnitsFrequency` uses the trait-default multiplicative `convert`. -/
def UnitsFrequency.convert : UnitsFrequency → UnitsFrequency → Rat → Result Rat :=
  convertDefault UnitsFrequency.as_si

/-- `UnitsLength` uses the trait-default multiplicative `convert`. -/
def UnitsLength.convert : UnitsLength → UnitsLength → Rat → Result Rat :=
  convertDefault UnitsLength.as_si

/-- `UnitsPower` uses the trait-default multiplicative `convert`. -/
def UnitsPower.convert : UnitsPower → UnitsPower → Rat → Result Rat :=
  convertDefault UnitsPower.as_si

/-- `UnitsPressure` uses the trait-default multiplicative `convert`. -/
def UnitsPressure.convert : UnitsPressure → UnitsPressure → Rat → Result Rat :=
  convertDefault UnitsPressure.as_si

/-- `UnitsTime` uses the trait-default multiplicative `convert`. -/
def UnitsTime.convert : UnitsTime → UnitsTime → Rat → Result Rat :=
  convertDefault UnitsTime.as_si

/-- `UnitsTemperature` fully overrides `convert` with the affine pair table
(src/src/ome.rs:2974-2990); the final wildcard arm returns the value unchanged. -/
def UnitsTemperature.convert (self unit : UnitsTemperature) (value : Rat) : Result Rat :=
  match self, unit with
  | .F, .C => .ok ((value - 32) * 5 / 9)
  | .K, .C => .ok (value - 273.15)
  | .R, .C => .ok ((value * 5 / 9) - 273.15)
  | .C, .F => .ok ((value * 9 / 5) + 32)
  | .K, .F => .ok ((value * 9 / 5) - 459.67)
  | .R, .F => .ok (value - 459.67)
  | .C, .K => .ok (value + 273.15)
  | .F, .K => .ok ((value + 459.67) * 5 / 9)
  | .R, .K => .ok (value * 5 / 9)
  | .C, .R => .ok ((value + 273.15) * 9 / 5)
  | .F, .R => .ok (value + 459.67)
  | .K, .R => .ok (value * 9 / 5)
  | _, _ => .ok value

/-- Canonical display symbol of each `UnitsElectricPotential` variant: the serde `rename`
attribute when present, otherwise the variant name (src/src/ome.rs, enum declaration). -/
def UnitsElectricPotential.display : UnitsElectricPotential → String
  | .YV => "YV"
  | .ZV => "ZV"
  | .EV => "EV"
  | .PV => "PV"
  | .TV => "TV"
  | .GV => "GV"
  | .MV => "MV"
  | .kV => "kV"
  | .hV => "hV"
  | .daV => "daV"
  | .V => "V"
  | .dV => "dV"
  | .cV => "cV"
  | .mV => "mV"
  | .uV => "µV"
  | .nV => "nV"
  | .pV => "pV"
  | .fV => "fV"
  | .aV => "aV"
  | .zV => "zV"
  | .yV => "yV"

/-- Canonical display symbol of each `UnitsFrequency` variant: the serde `rename`
attribute when present, otherwise the variant name (src/src/ome.rs, enum declaration). -/
def UnitsFrequency.display : UnitsFrequency → String
  | .YHz => "YHz"
  | .ZHz => "ZHz"
  | .EHz => "EHz"
  | .PHz => "PHz"
  | .THz => "THz"
  | .GHz => "GHz"
  | .MHz => "MHz"
  | .kHz => "kHz"
  | .hHz => "hHz"
  | .daHz => "daHz"
  | .Hz => "Hz"
  | .dHz => "dHz"
  | .cHz => "cHz"
  | .mHz => "mHz"
  | .uHz => "µHz"
  | .nHz => "nHz"
  | .pHz => "pHz"
  | .fHz => "fHz"
  | .aHz => "aHz"
  | .zHz => "zHz"
  | .yHz => "yHz"

/-- Canonical display symbol of each `UnitsLength` variant: the serde `rename`
attribute when present, otherwise the variant name (src/src/ome.rs, enum declaration). -/
def UnitsLength.display : UnitsLength → String
  | .Ym => "Ym"
  | .Zm => "Zm"
  | .Em => "Em"
  | .Pm => "Pm"
  | .Tm => "Tm"
  | .Gm => "Gm"
  | .Mm => "Mm"
  | .km => "km"
  | .hm => "hm"
  | .dam => "dam"
  | .m => "m"
  | .dm => "dm"
  | .cm => "cm"
  | .mm => "mm"
  | .um => "µm"
  | .nm => "nm"
  | .pm => "pm"
  | .fm => "fm"
  | .am => "am"
  | .zm => "zm"
  | .ym => "ym"
  | .A => "Å"
  | .Thou => "thou"
  | .Li => "li"
  | .In => "in"
  | .Ft => "ft"
  | .Yd => "yd"
  | .Mi => "mi"
  | .Ua => "ua"
  | .Ly => "ly"
  | .Pc => "pc"
  | .Pt => "pt"
  | .Pixel => "pixel"
  | .ReferenceFrame => "reference frame"

/-- Canonical display symbol of each `UnitsPower` variant: the serde `rename`
attribute when present, otherwise the variant name (src/src/ome.rs, enum declaration). -/
def UnitsPower.display : UnitsPower → String
  | .YW => "YW"
  | .ZW => "ZW"
  | .EW => "EW"
  | .PW => "PW"
  | .TW => "TW"
  | .GW => "GW"
  | .MW => "MW"
  | .kW => "kW"
  | .hW => "hW"
  | .daW => "daW"
  | .W => "W"
  | .dW => "dW"
  | .cW => "cW"
  | .mW => "mW"
  | .uW => "µW"
  | .nW => "nW"
  | .pW => "pW"
  | .fW => "fW"
  | .aW => "aW"
  | .zW => "zW"
  | .yW => "yW"

/-- Canonical display symbol of each `UnitsPressure` variant: the serde `rename`
attribute when present, otherwise the variant name (src/src/ome.rs, enum declaration). -/
def UnitsPressure.display : UnitsPressure → String
  | .YPa => "YPa"
  | .ZPa => "ZPa"
  | .EPa => "EPa"
  | .PPa => "PPa"
  | .TPa => "TPa"
  | .GPa => "GPa"
  | .MPa => "MPa"
  | .kPa => "kPa"
  | .hPa => "hPa"
  | .daPa => "daPa"
  | .Pa => "Pa"
  | .dPa => "dPa"
  | .cPa => "cPa"
  | .mPa => "mPa"
  | .uPa => "µPa"
  | .nPa => "nPa"
  | .pPa => "pPa"
  | .fPa => "fPa"
  | .aPa => "aPa"
  | .zPa => "zPa"
  | .yPa => "yPa"
  | .bar => "bar"
  | .Mbar => "Mbar"
  | .kbar => "kbar"
  | .dbar => "dbar"
  | .cbar => "cbar"
  | .mbar => "mbar"
  | .atm => "atm"
  | .psi => "psi"
  | .Torr => "Torr"
  | .mTorr => "mTorr"
  | .mmHg => "mm Hg"

/-- Canonical display symbol of each `UnitsTemperature` variant: the serde `rename`
attribute when present, otherwise the variant name (src/src/ome.rs, enum declaration). -/
def UnitsTemperature.display : UnitsTemperature → String
  | .C => "°C"
  | .F => "°F"
  | .K => "K"
  | .R => "°R"

/-- Canonical display symbol of each `UnitsTime` variant: the serde `rename`
attribute when present, otherwise the variant name (src/src/ome.rs, enum declaration). -/
def UnitsTime.display : UnitsTime → String
  | .Ys => "Ys"
  | .Zs => "Zs"
  | .Es => "Es"
  | .Ps => "Ps"
  | .Ts => "Ts"
  | .Gs => "Gs"
  | .Ms => "Ms"
  | .ks => "ks"
  | .hs => "hs"
  | .das => "das"
  | .s => "s"
  | .ds => "ds"
  | .cs => "cs"
  | .ms => "ms"
  | .us => "µs"
  | .ns => "ns"
  | .ps => "ps"
  | .fs => "fs"
  | .as => "as"
  | .zs => "zs"
  | .ys => "ys"
  | .min => "min"
  | .h => "h"
  | .d => "d"

/-- Modelled from the spec: the string→variant parse implementation is generated by
derive macros (`enum_utils::FromStr`, serde `Deserialize`) whose expansion is not part
of the repository sources. Per spec §4.1 and §6 each variant is matched exactly and
case-sensitively by its canonical symbol, and the micro prefix is accepted both as
"µ" and as ASCII "u". This table lists the accepted spellings per variant. -/
def UnitsElectricPotential.symbols : UnitsElectricPotential → List String
  | .uV => ["µV", "uV"]
  | v => [v.display]

/-- Modelled from the spec: the string→variant parse implementation is generated by
derive macros (`enum_utils::FromStr`, serde `Deserialize`) whose expansion is not part
of the repository sources. Per spec §4.1 and §6 each variant is matched exactly and
case-sensitively by its canonical symbol, and the micro prefix is accepted both as
"µ" and as ASCII "u". This table lists the accepted spellings per variant. -/
def UnitsFrequency.symbols : UnitsFrequency → List String
  | .uHz => ["µHz", "uHz"]
  | v => [v.display]

/-- Modelled from the spec: the string→variant parse implementation is generated by
derive macros (`enum_utils::FromStr`, serde `Deserialize`) whose expansion is not part
of the repository sources. Per spec §4.1 and §6 each variant is matched exactly and
case-sensitively by its canonical symbol, and the micro prefix is accepted both as
"µ" and as ASCII "u". This table lists the accepted spellings per variant. -/
def UnitsLength.symbols : UnitsLength → List String
  | .um => ["µm", "um"]
  | v => [v.display]

/-- Modelled from the spec: the string→variant parse implementation is generated by
derive macros (`enum_utils::FromStr`, serde `Deserialize`) whose expansion is not part
of the repository sources. Per spec §4.1 and §6 each variant is matched exactly and
case-sensitively by its canonical symbol, and the micro prefix is accepted both as
"µ" and as ASCII "u". This table lists the accepted spellings per variant. -/
def UnitsPower.symbols : UnitsPower → List String
  | .uW => ["µW", "uW"]
  | v => [v.display]

/-- Modelled from the spec: the string→variant parse implementation is generated by
derive macros (`enum_utils::FromStr`, serde `Deserialize`) whose expansion is not part
of the repository sources. Per spec §4.1 and §6 each variant is matched exactly and
case-sensitively by its canonical symbol, and the micro prefix is accepted both as
"µ" and as ASCII "u". This table lists the accepted spellings per variant. -/
def UnitsPressure.symbols : UnitsPressure → List String
  | .uPa => ["µPa", "uPa"]
  | v => [v.display]

/-- Modelled from the spec: the string→variant parse implementation is generated by
derive macros (`enum_utils::FromStr`, serde `Deserialize`) whose expansion is not part
of the repository sources. Per spec §4.1 and §6 each variant is matched exactly and
case-sensitively by its canonical symbol, and the micro prefix is accepted both as
"µ" and as ASCII "u". This table lists the accepted spellings per variant. -/
def UnitsTemperature.symbols : UnitsTemperature → List String
  | v => [v.display]

/-- Modelled from the spec: the string→variant parse implementation is generated by
derive macros (`enum_utils::FromStr`, serde `Deserialize`) whose expansion is not part
of the repository sources. Per spec §4.1 and §6 each variant is matched exactly and
case-sensitively by its canonical symbol, and the micro prefix is accepted both as
"µ" and as ASCII "u". This table lists the accepted spellings per variant. -/
def UnitsTime.symbols : UnitsTime → List String
  | .us => ["µs", "us"]
  | v => [v.display]

/-- Shared parse routine: first variant (in declaration order) one of whose accepted
spellings equals the input exactly; otherwise the `UnknownUnit(raw)` failure of spec §7. -/
def parseUnit {α : Type} (vs : List α) (sy : α → List String) (s : String) : Result α :=
  match vs.find? (fun v => (sy v).contains s) with
  | some v => .ok v
  | none => .error (.unknownUnit s)

/-- Modelled from the spec: string→variant parse for `UnitsElectricPotential` (spec §4.1). -/
def UnitsElectricPotential.parse : String → Result UnitsElectricPotential :=
  parseUnit UnitsElectricPotential.variants UnitsElectricPotential.symbols

/-- Modelled from the spec: string→variant parse for `UnitsFrequency` (spec §4.1). -/
def UnitsFrequency.parse : String → Result UnitsFrequency :=
  parseUnit UnitsFrequency.variants UnitsFrequency.symbols

/-- Modelled from the spec: string→variant parse for `UnitsLength` (spec §4.1). -/
def UnitsLength.parse : String → Result UnitsLength :=
  parseUnit UnitsLength.variants UnitsLength.symbols

/-- Modelled from the spec: string→variant parse for `UnitsPower` (spec §4.1). -/
def UnitsPower.parse : String → Result UnitsPower :=
  parseUnit UnitsPower.variants UnitsPower.symbols

/-- Modelled from the spec: string→variant parse for `UnitsPressure` (spec §4.1). -/
def UnitsPressure.parse : String → Result UnitsPressure :=
  parseUnit UnitsPressure.variants UnitsPressure.symbols

/-- Modelled from the spec: string→variant parse for `UnitsTemperature` (spec §4.1). -/
def UnitsTemperature.parse : String → Result UnitsTemperature :=
  parseUnit UnitsTemperature.variants UnitsTemperature.symbols

/-- Modelled from the spec: string→variant parse for `UnitsTime` (spec §4.1). -/
def UnitsTime.parse : String → Result UnitsTime :=
  parseUnit UnitsTime.variants UnitsTime.symbols

/-- The trait-default `convert` short-circuits on equal units, returning the value
without consulting `as_si`. -/
theorem convertDefault_self {α : Type} [DecidableEq α] (si : α → Result Rat) (v : α) (x : Rat) :
    convertDefault si v v x = .ok x := by
  unfold convertDefault
  rw [if_pos rfl]

/-- On distinct units the trait-default `convert` is the bind of the two `as_si` results. -/
theorem convertDefault_ne {α : Type} [DecidableEq α] (si : α → Result Rat) (a b : α) (x : Rat)
    (h : a ≠ b) :
    convertDefault si a b x =
      (si a).bind fun fa => (si b).bind fun fb => .ok (x * fa / fb) := by
  unfold convertDefault
  rw [if_neg h]
  cases si a with
  | error e => rfl
  | ok fa => cases si b with
    | error e => rfl
    | ok fb => rfl

/-- Any error of the trait-default `convert` is an error of `as_si` on one of its sides. -/
theorem convertDefault_error_src {α : Type} [DecidableEq α] (si : α → Result Rat) (u v : α)
    (x : Rat) (e : Error) (h : convertDefault si u v x = .error e) :
    si u = .error e ∨ si v = .error e := by
  unfold convertDefault at h
  by_cases huv : u = v
  · rw [if_pos huv] at h
    exact Except.noConfusion h
  · rw [if_neg huv] at h
    cases hu : si u with
    | error e2 =>
      rw [hu] at h
      exact Or.inl h
    | ok a =>
      rw [hu] at h
      cases hv : si v with
      | error e2 =>
        rw [hv] at h
        exact Or.inr h
      | ok b =>
        rw [hv] at h
        exact Except.noConfusion (show Except.ok (x * a / b) = Except.error e from h)

/-- When `as_si` never fails on a domain, neither does the trait-default `convert`. -/
theorem convertDefault_isOk {α : Type} [DecidableEq α] (si : α → Result Rat)
    (hsi : ∀ w, (si w).isOk = true) (u v : α) (x : Rat) :
    (convertDefault si u v x).isOk = true := by
  unfold convertDefault
  by_cases huv : u = v
  · rw [if_pos huv]
    rfl
  · rw [if_neg huv]
    cases hu : si u with
    | error e => have h2 := hsi u; rw [hu] at h2; exact Bool.noConfusion h2
    | ok a =>
      cases hv : si v with
      | error e => have h2 := hsi v; rw [hv] at h2; exact Bool.noConfusion h2
      | ok b => rfl

/-- A non-identity conversion fails as soon as `as_si` fails on either side. -/
theorem convertDefault_isErr {α : Type} [DecidableEq α] (si : α → Result Rat) (u v : α) (x : Rat)
    (hne : u ≠ v) (h : (si u).isErr = true ∨ (si v).isErr = true) :
    (convertDefault si u v x).isErr = true := by
  unfold convertDefault
  rw [if_neg hne]
  cases hu : si u with
  | error e => rfl
  | ok a =>
    cases hv : si v with
    | error e => rfl
    | ok b =>
      rw [hu, hv] at h
      rcases h with h | h <;> exact Bool.noConfusion h

/-- A string matching no accepted spelling of any variant parses to `UnknownUnit(raw)`. -/
theorem parseUnit_unknown {α : Type} (vs : List α) (sy : α → List String) (s : String)
    (h : ∀ v ∈ vs, (sy v).contains s = false) : parseUnit vs sy s = .error (.unknownUnit s) := by
  unfold parseUnit
  have hn : vs.find? (fun v => (sy v).contains s) = none := by
    rw [List.find?_eq_none]
    intro v hv
    simpa using h v hv
  rw [hn]

/-- The `UnitsElectricPotential` SI table is total. -/
theorem as_si_ok_electricPotential : ∀ v : UnitsElectricPotential, (UnitsElectricPotential.as_si v).isOk = true := by
  intro v
  cases v <;> rfl

/-- The `UnitsFrequency` SI table is total. -/
theorem as_si_ok_frequency : ∀ v : UnitsFrequency, (UnitsFrequency.as_si v).isOk = true := by
  intro v
  cases v <;> rfl

/-- The `UnitsPower` SI table is total. -/
theorem as_si_ok_power : ∀ v : UnitsPower, (UnitsPower.as_si v).isOk = true := by
  intro v
  cases v <;> rfl

/-- The `UnitsPressure` SI table is total. -/
theorem as_si_ok_pressure : ∀ v : UnitsPressure, (UnitsPressure.as_si v).isOk = true := by
  intro v
  cases v <;> rfl

/-- The `UnitsTime` SI table is total. -/
theorem as_si_ok_time : ∀ v : UnitsTime, (UnitsTime.as_si v).isOk = true := by
  intro v
  cases v <;> rfl

/-- The only errors in the `UnitsLength` SI table are the two ad-hoc pixel and
reference-frame messages. -/
theorem length_as_si_error_msg {v : UnitsLength} {e : Error}
    (h : UnitsLength.as_si v = .error e) :
    e = .adHoc "Size of pixel is unknown" ∨ e = .adHoc "Size of reference frame is unknown" := by
  cases v
  case Pixel =>
    injection h with h2
    exact Or.inl h2.symm
  case ReferenceFrame =>
    injection h with h2
    exact Or.inr h2.symm
  all_goals exact Except.noConfusion h

/-- The only error in the `UnitsTemperature` SI table is the ad-hoc
"No conversion to K by multiplication only" message. -/
theorem temperature_as_si_error_msg {v : UnitsTemperature} {e : Error}
    (h : UnitsTemperature.as_si v = .error e) :
    e = .adHoc "No conversion to K by multiplication only" := by
  cases v
  case C =>
    injection h with h2
    exact h2.symm
  case F =>
    injection h with h2
    exact h2.symm
  all_goals exact Except.noConfusion h
/-- C1: for every unit domain and every variant `v`, `convert(v, v, x)` returns `Ok(x)`
unchanged for every value `x` — including `Length::Pixel` and `Length::ReferenceFrame`,
which have no SI factor, and every `Temperature` variant (whose override reaches the
wildcard identity arm). -/
theorem convert_self_identity :
    (∀ (v : UnitsElectricPotential) (x : Rat), UnitsElectricPotential.convert v v x = .ok x) ∧
    (∀ (v : UnitsFrequency) (x : Rat), UnitsFrequency.convert v v x = .ok x) ∧
    (∀ (v : UnitsLength) (x : Rat), UnitsLength.convert v v x = .ok x) ∧
    (∀ (v : UnitsPower) (x : Rat), UnitsPower.convert v v x = .ok x) ∧
    (∀ (v : UnitsPressure) (x : Rat), UnitsPressure.convert v v x = .ok x) ∧
    (∀ (v : UnitsTemperature) (x : Rat), UnitsTemperature.convert v v x = .ok x) ∧
    (∀ (v : UnitsTime) (x : Rat), UnitsTime.convert v v x = .ok x) :=
  ⟨fun v x => convertDefault_self UnitsElectricPotential.as_si v x,
   fun v x => convertDefault_self UnitsFrequency.as_si v x,
   fun v x => convertDefault_self UnitsLength.as_si v x,
   fun v x => convertDefault_self UnitsPower.as_si v x,
   fun v x => convertDefault_self UnitsPressure.as_si v x,
   fun v x => by cases v <;> rfl,
   fun v x => convertDefault_self UnitsTime.as_si v x⟩

/-- C2: each of the twelve non-identity ordered pairs of `Temperature` variants uses
exactly the stated closed-form affine formula, and the four concrete instances hold;
in the exact rational semantics `convert(R, C, 491.67)` equals `0` exactly. -/
theorem temperature_affine_formulas :
    (∀ x : Rat, UnitsTemperature.convert .F .C x = .ok ((x - 32) * 5 / 9)) ∧
    (∀ x : Rat, UnitsTemperature.convert .K .C x = .ok (x - 273.15)) ∧
    (∀ x : Rat, UnitsTemperature.convert .R .C x = .ok ((x * 5 / 9) - 273.15)) ∧
    (∀ x : Rat, UnitsTemperature.convert .C .F x = .ok ((x * 9 / 5) + 32)) ∧
    (∀ x : Rat, UnitsTemperature.convert .K .F x = .ok ((x * 9 / 5) - 459.67)) ∧
    (∀ x : Rat, UnitsTemperature.convert .R .F x = .ok (x - 459.67)) ∧
    (∀ x : Rat, UnitsTemperature.convert .C .K x = .ok (x + 273.15)) ∧
    (∀ x : Rat, UnitsTemperature.convert .F .K x = .ok ((x + 459.67) * 5 / 9)) ∧
    (∀ x : Rat, UnitsTemperature.convert .R .K x = .ok (x * 5 / 9)) ∧
    (∀ x : Rat, UnitsTemperature.convert .C .R x = .ok ((x + 273.15) * 9 / 5)) ∧
    (∀ x : Rat, UnitsTemperature.convert .F .R x = .ok (x + 459.67)) ∧
    (∀ x : Rat, UnitsTemperature.convert .K .R x = .ok (x * 9 / 5)) ∧
    UnitsTemperature.convert .C .K 0 = .ok 273.15 ∧
    UnitsTemperature.convert .F .C 32 = .ok 0 ∧
    UnitsTemperature.convert .K .F 0 = .ok (-459.67) ∧
    UnitsTemperature.convert .R .C 491.67 = .ok 0 := by
  refine ⟨fun x => rfl, fun x => rfl, fun x => rfl, fun x => rfl, fun x => rfl, fun x => rfl,
    fun x => rfl, fun x => rfl, fun x => rfl, fun x => rfl, fun x => rfl, fun x => rfl,
    ?_, ?_, ?_, ?_⟩
  · show Except.ok ((0 : Rat) + 273.15) = Except.ok 273.15
    norm_num
  · show Except.ok (((32 : Rat) - 32) * 5 / 9) = Except.ok 0
    norm_num
  · show Except.ok (((0 : Rat) * 9 / 5) - 459.67) = Except.ok (-459.67)
    norm_num
  · show Except.ok (((491.67 : Rat) * 5 / 9) - 273.15) = Except.ok 0
    norm_num

/-- C3: on every multiplicative domain, a conversion between distinct variants is
`value * as_si(from)? / as_si(to)?` — the bind of the two SI lookups, which yields
`Ok(value * as_si(from) / as_si(to))` when both are defined and propagates the
first failing side otherwise; concretely, 1000 m is 1 km and 1 km is 1000 m. -/
theorem convert_multiplicative_scale :
    (∀ (a b : UnitsElectricPotential) (x : Rat), a ≠ b →
      UnitsElectricPotential.convert a b x =
        (UnitsElectricPotential.as_si a).bind fun fa =>
          (UnitsElectricPotential.as_si b).bind fun fb => .ok (x * fa / fb)) ∧
    (∀ (a b : UnitsFrequency) (x : Rat), a ≠ b →
      UnitsFrequency.convert a b x =
        (UnitsFrequency.as_si a).bind fun fa =>
          (UnitsFrequency.as_si b).bind fun fb => .ok (x * fa / fb)) ∧
    (∀ (a b : UnitsLength) (x : Rat), a ≠ b →
      UnitsLength.convert a b x =
        (UnitsLength.as_si a).bind fun fa =>
          (UnitsLength.as_si b).bind fun fb => .ok (x * fa / fb)) ∧
    (∀ (a b : UnitsPower) (x : Rat), a ≠ b →
      UnitsPower.convert a b x =
        (UnitsPower.as_si a).bind fun fa =>
          (UnitsPower.as_si b).bind fun fb => .ok (x * fa / fb)) ∧
    (∀ (a b : UnitsPressure) (x : Rat), a ≠ b →
      UnitsPressure.convert a b x =
        (UnitsPressure.as_si a).bind fun fa =>
          (UnitsPressure.as_si b).bind fun fb => .ok (x * fa / fb)) ∧
    (∀ (a b : UnitsTime) (x : Rat), a ≠ b →
      UnitsTime.convert a b x =
        (UnitsTime.as_si a).bind fun fa =>
          (UnitsTime.as_si b).bind fun fb => .ok (x * fa / fb)) ∧
    UnitsLength.convert .m .km 1000 = .ok 1 ∧
    UnitsLength.convert .km .m 1 = .ok 1000 := by
  refine ⟨fun a b x h => convertDefault_ne UnitsElectricPotential.as_si a b x h,
    fun a b x h => convertDefault_ne UnitsFrequency.as_si a b x h,
    fun a b x h => convertDefault_ne UnitsLength.as_si a b x h,
    fun a b x h => convertDefault_ne UnitsPower.as_si a b x h,
    fun a b x h => convertDefault_ne UnitsPressure.as_si a b x h,
    fun a b x h => convertDefault_ne UnitsTime.as_si a b x h, ?_, ?_⟩
  · show Except.ok ((1000 : Rat) * 1e0 / 1e3) = Except.ok 1
    norm_num
  · show Except.ok ((1 : Rat) * 1e3 / 1e0) = Except.ok 1000
    norm_num

/-- Witness for C3: instantiating the `UnitsLength` conjunct at the distinct pair
`(Pixel, um)` shows the failing `as_si(Pixel)` propagating through the bind. -/
theorem convert_multiplicative_scale_witness :
    UnitsLength.convert .Pixel .um 1 =
      (UnitsLength.as_si .Pixel).bind fun fa =>
        (UnitsLength.as_si .um).bind fun fb => .ok ((1 : Rat) * fa / fb) :=
  convert_multiplicative_scale.2.2.1 .Pixel .um 1 (by decide)
/-- C4: in every domain, parsing the displayed canonical symbol of a variant returns
that variant, and `display` reproduces the exact case-sensitive source symbols,
including the non-ASCII forms "µm", "°C", "mm Hg" and "reference frame". -/
theorem parse_display_roundtrip :
    (∀ v : UnitsElectricPotential, UnitsElectricPotential.parse v.display = .ok v) ∧
    (∀ v : UnitsFrequency, UnitsFrequency.parse v.display = .ok v) ∧
    (∀ v : UnitsLength, UnitsLength.parse v.display = .ok v) ∧
    (∀ v : UnitsPower, UnitsPower.parse v.display = .ok v) ∧
    (∀ v : UnitsPressure, UnitsPressure.parse v.display = .ok v) ∧
    (∀ v : UnitsTemperature, UnitsTemperature.parse v.display = .ok v) ∧
    (∀ v : UnitsTime, UnitsTime.parse v.display = .ok v) ∧
    UnitsLength.um.display = "µm" ∧
    UnitsTemperature.C.display = "°C" ∧
    UnitsPressure.mmHg.display = "mm Hg" ∧
    UnitsLength.ReferenceFrame.display = "reference frame" :=
  ⟨fun v => by cases v <;> rfl,
   fun v => by cases v <;> rfl,
   fun v => by cases v <;> rfl,
   fun v => by cases v <;> rfl,
   fun v => by cases v <;> rfl,
   fun v => by cases v <;> rfl,
   fun v => by cases v <;> rfl,
   rfl, rfl, rfl, rfl⟩

/-- C5: `as_si` fails exactly on `Length::Pixel` and `Length::ReferenceFrame` (with the
two ad-hoc messages) and succeeds on every other variant of every multiplicative domain;
any non-identity conversion involving `Pixel` or `ReferenceFrame` fails, and
`convert(Pixel, um, 1)` fails with the pixel size-unknown error. -/
theorem as_si_size_unknown :
    (∀ v : UnitsLength,
      (UnitsLength.as_si v).isOk = true ↔ (v ≠ .Pixel ∧ v ≠ .ReferenceFrame)) ∧
    UnitsLength.as_si .Pixel = .error (.adHoc "Size of pixel is unknown") ∧
    UnitsLength.as_si .ReferenceFrame = .error (.adHoc "Size of reference frame is unknown") ∧
    (∀ v : UnitsElectricPotential, (UnitsElectricPotential.as_si v).isOk = true) ∧
    (∀ v : UnitsFrequency, (UnitsFrequency.as_si v).isOk = true) ∧
    (∀ v : UnitsPower, (UnitsPower.as_si v).isOk = true) ∧
    (∀ v : UnitsPressure, (UnitsPressure.as_si v).isOk = true) ∧
    (∀ v : UnitsTime, (UnitsTime.as_si v).isOk = true) ∧
    (∀ (u v : UnitsLength) (x : Rat), u ≠ v →
      (u = .Pixel ∨ u = .ReferenceFrame ∨ v = .Pixel ∨ v = .ReferenceFrame) →
      (UnitsLength.convert u v x).isErr = true) ∧
    UnitsLength.convert .Pixel .um 1 = .error (.adHoc "Size of pixel is unknown") := by
  refine ⟨?_, rfl, rfl, as_si_ok_electricPotential, as_si_ok_frequency, as_si_ok_power,
    as_si_ok_pressure, as_si_ok_time, ?_, rfl⟩
  · intro v
    cases v <;> simp [UnitsLength.as_si, Except.isOk, Except.toBool]
  · intro u v x hne hm
    refine convertDefault_isErr UnitsLength.as_si u v x hne ?_
    rcases hm with h | h | h | h
    · subst h; exact Or.inl rfl
    · subst h; exact Or.inl rfl
    · subst h; exact Or.inr rfl
    · subst h; exact Or.inr rfl

/-- Witness for C5: the non-identity conversion from `um` to `Pixel` fails (the failing
side here is the target unit). -/
theorem as_si_size_unknown_witness : (UnitsLength.convert .um .Pixel 5).isErr = true :=
  as_si_size_unknown.2.2.2.2.2.2.2.2.1 .um .Pixel 5 (by decide) (Or.inr (Or.inr (Or.inl rfl)))

/-- C6: the `Temperature` override of `convert` returns `Ok` for every ordered pair and
every value and never consults `as_si`: the `as_si` table (errors on C and F, placeholder
factors 10 for K and 5/9 for R) is as declared, yet `convert(K, R, 1)` yields `9/5`
where the generic multiplicative path over those placeholders would yield `18` —
so the placeholder path is not the one `convert` takes. -/
theorem temperature_convert_total :
    (∀ (u v : UnitsTemperature) (x : Rat), (UnitsTemperature.convert u v x).isOk = true) ∧
    UnitsTemperature.as_si .C = .error (.adHoc "No conversion to K by multiplication only") ∧
    UnitsTemperature.as_si .F = .error (.adHoc "No conversion to K by multiplication only") ∧
    UnitsTemperature.as_si .K = .ok 1e1 ∧
    UnitsTemperature.as_si .R = .ok (5 / 9) ∧
    UnitsTemperature.convert .K .R 1 = .ok (9 / 5) ∧
    convertDefault UnitsTemperature.as_si .K .R 1 = .ok 18 := by
  refine ⟨fun u v x => by cases u <;> cases v <;> rfl, rfl, rfl, rfl, rfl, ?_, ?_⟩
  · show Except.ok ((1 : Rat) * 9 / 5) = Except.ok (9 / 5)
    norm_num
  · show Except.ok ((1 : Rat) * 1e1 / (5 / 9)) = Except.ok 18
    norm_num

/-- C7: in every SI-prefixed domain the micro symbol is accepted in both spellings —
the micro-sign form and the ASCII "u" form — and both parse to the same variant. -/
theorem micro_symbol_both_spellings :
    UnitsElectricPotential.parse "µV" = .ok .uV ∧ UnitsElectricPotential.parse "uV" = .ok .uV ∧
    UnitsFrequency.parse "µHz" = .ok .uHz ∧ UnitsFrequency.parse "uHz" = .ok .uHz ∧
    UnitsLength.parse "µm" = .ok .um ∧ UnitsLength.parse "um" = .ok .um ∧
    UnitsPower.parse "µW" = .ok .uW ∧ UnitsPower.parse "uW" = .ok .uW ∧
    UnitsPressure.parse "µPa" = .ok .uPa ∧ UnitsPressure.parse "uPa" = .ok .uPa ∧
    UnitsTime.parse "µs" = .ok .us ∧ UnitsTime.parse "us" = .ok .us :=
  ⟨rfl, rfl, rfl, rfl, rfl, rfl, rfl, rfl, rfl, rfl, rfl, rfl⟩
/-- C8: in every domain, an input string that matches no accepted spelling of any
variant fails with `UnknownUnit` carrying the raw input; concretely,
`parse(Pressure, "xyz")` fails with `UnknownUnit("xyz")`. -/
theorem parse_unknown_unit :
    (∀ s : String, (∀ v ∈ UnitsElectricPotential.variants,
        (UnitsElectricPotential.symbols v).contains s = false) →
      UnitsElectricPotential.parse s = .error (.unknownUnit s)) ∧
    (∀ s : String, (∀ v ∈ UnitsFrequency.variants,
        (UnitsFrequency.symbols v).contains s = false) →
      UnitsFrequency.parse s = .error (.unknownUnit s)) ∧
    (∀ s : String, (∀ v ∈ UnitsLength.variants,
        (UnitsLength.symbols v).contains s = false) →
      UnitsLength.parse s = .error (.unknownUnit s)) ∧
    (∀ s : String, (∀ v ∈ UnitsPower.variants,
        (UnitsPower.symbols v).contains s = false) →
      UnitsPower.parse s = .error (.unknownUnit s)) ∧
    (∀ s : String, (∀ v ∈ UnitsPressure.variants,
        (UnitsPressure.symbols v).contains s = false) →
      UnitsPressure.parse s = .error (.unknownUnit s)) ∧
    (∀ s : String, (∀ v ∈ UnitsTemperature.variants,
        (UnitsTemperature.symbols v).contains s = false) →
      UnitsTemperature.parse s = .error (.unknownUnit s)) ∧
    (∀ s : String, (∀ v ∈ UnitsTime.variants,
        (UnitsTime.symbols v).contains s = false) →
      UnitsTime.parse s = .error (.unknownUnit s)) ∧
    UnitsPressure.parse "xyz" = .error (.unknownUnit "xyz") :=
  ⟨fun s h => parseUnit_unknown UnitsElectricPotential.variants UnitsElectricPotential.symbols s h,
   fun s h => parseUnit_unknown UnitsFrequency.variants UnitsFrequency.symbols s h,
   fun s h => parseUnit_unknown UnitsLength.variants UnitsLength.symbols s h,
   fun s h => parseUnit_unknown UnitsPower.variants UnitsPower.symbols s h,
   fun s h => parseUnit_unknown UnitsPressure.variants UnitsPressure.symbols s h,
   fun s h => parseUnit_unknown UnitsTemperature.variants UnitsTemperature.symbols s h,
   fun s h => parseUnit_unknown UnitsTime.variants UnitsTime.symbols s h,
   rfl⟩

/-- Witness for C8: the Pressure conjunct applied to the concrete non-symbol "%%". -/
theorem parse_unknown_unit_witness :
    UnitsPressure.parse "%%" = .error (.unknownUnit "%%") :=
  parse_unknown_unit.2.2.2.2.1 "%%" (by decide)

/-- C9: for every domain, `variants()` lists every declared variant exactly once in
declaration order (its image under the auto-generated constructor index is
`0, 1, ..., n-1`), it is a fixed list (hence deterministic and restartable), and its
length is the declared count per domain — in particular Temperature has exactly 4. -/
theorem variants_enumeration :
    UnitsElectricPotential.variants.map UnitsElectricPotential.toCtorIdx = List.range 21 ∧
    (∀ v : UnitsElectricPotential, v ∈ UnitsElectricPotential.variants) ∧
    UnitsFrequency.variants.map UnitsFrequency.toCtorIdx = List.range 21 ∧
    (∀ v : UnitsFrequency, v ∈ UnitsFrequency.variants) ∧
    UnitsLength.variants.map UnitsLength.toCtorIdx = List.range 34 ∧
    (∀ v : UnitsLength, v ∈ UnitsLength.variants) ∧
    UnitsPower.variants.map UnitsPower.toCtorIdx = List.range 21 ∧
    (∀ v : UnitsPower, v ∈ UnitsPower.variants) ∧
    UnitsPressure.variants.map UnitsPressure.toCtorIdx = List.range 32 ∧
    (∀ v : UnitsPressure, v ∈ UnitsPressure.variants) ∧
    UnitsTemperature.variants.map UnitsTemperature.toCtorIdx = List.range 4 ∧
    (∀ v : UnitsTemperature, v ∈ UnitsTemperature.variants) ∧
    UnitsTime.variants.map UnitsTime.toCtorIdx = List.range 24 ∧
    (∀ v : UnitsTime, v ∈ UnitsTime.variants) ∧
    UnitsTemperature.variants.length = 4 :=
  ⟨by decide, fun v => by cases v <;> decide,
   by decide, fun v => by cases v <;> decide,
   by decide, fun v => by cases v <;> decide,
   by decide, fun v => by cases v <;> decide,
   by decide, fun v => by cases v <;> decide,
   by decide, fun v => by cases v <;> decide,
   by decide, fun v => by cases v <;> decide,
   rfl⟩

/-- C10: no conversion operation constructs the typed `Error::SizeOfUnknown` or
`Error::TemparatureConversion` variants of src/src/error.rs: every failure of `as_si`
(and hence of `convert`) is an ad-hoc string error whose message is exactly
"Size of pixel is unknown", "Size of reference frame is unknown" or
"No conversion to K by multiplication only", and on the five always-defined domains
neither operation fails at all. -/
theorem conversion_errors_adhoc :
    (∀ (v : UnitsLength) (e : Error), UnitsLength.as_si v = .error e →
      e = .adHoc "Size of pixel is unknown" ∨ e = .adHoc "Size of reference frame is unknown") ∧
    (∀ (v : UnitsTemperature) (e : Error), UnitsTemperature.as_si v = .error e →
      e = .adHoc "No conversion to K by multiplication only") ∧
    (∀ v : UnitsElectricPotential, (UnitsElectricPotential.as_si v).isOk = true) ∧
    (∀ v : UnitsFrequency, (UnitsFrequency.as_si v).isOk = true) ∧
    (∀ v : UnitsPower, (UnitsPower.as_si v).isOk = true) ∧
    (∀ v : UnitsPressure, (UnitsPressure.as_si v).isOk = true) ∧
    (∀ v : UnitsTime, (UnitsTime.as_si v).isOk = true) ∧
    (∀ (u v : UnitsLength) (x : Rat) (e : Error), UnitsLength.convert u v x = .error e →
      e = .adHoc "Size of pixel is unknown" ∨ e = .adHoc "Size of reference frame is unknown") ∧
    (∀ (u v : UnitsTemperature) (x : Rat), (UnitsTemperature.convert u v x).isOk = true) ∧
    (∀ (u v : UnitsElectricPotential) (x : Rat),
      (UnitsElectricPotential.convert u v x).isOk = true) ∧
    (∀ (u v : UnitsFrequency) (x : Rat), (UnitsFrequency.convert u v x).isOk = true) ∧
    (∀ (u v : UnitsPower) (x : Rat), (UnitsPower.convert u v x).isOk = true) ∧
    (∀ (u v : UnitsPressure) (x : Rat), (UnitsPressure.convert u v x).isOk = true) ∧
    (∀ (u v : UnitsTime) (x : Rat), (UnitsTime.convert u v x).isOk = true) :=
  ⟨fun v e h => length_as_si_error_msg h,
   fun v e h => temperature_as_si_error_msg h,
   as_si_ok_electricPotential, as_si_ok_frequency, as_si_ok_power, as_si_ok_pressure,
   as_si_ok_time,
   fun u v x e h => by
     rcases convertDefault_error_src UnitsLength.as_si u v x e h with h2 | h2 <;>
       exact length_as_si_error_msg h2,
   fun u v x => by cases u <;> cases v <;> rfl,
   fun u v x => convertDefault_isOk UnitsElectricPotential.as_si as_si_ok_electricPotential u v x,
   fun u v x => convertDefault_isOk UnitsFrequency.as_si as_si_ok_frequency u v x,
   fun u v x => convertDefault_isOk UnitsPower.as_si as_si_ok_power u v x,
   fun u v x => convertDefault_isOk UnitsPressure.as_si as_si_ok_pressure u v x,
   fun u v x => convertDefault_isOk UnitsTime.as_si as_si_ok_time u v x⟩

/-- Witness for C10: the convert-error conjunct applied to the concrete failing
conversion from `Pixel` to `m`. -/
theorem conversion_errors_adhoc_witness :
    Error.adHoc "Size of pixel is unknown" = .adHoc "Size of pixel is unknown" ∨
      Error.adHoc "Size of pixel is unknown" = .adHoc "Size of reference frame is unknown" :=
  conversion_errors_adhoc.2.2.2.2.2.2.2.1 .Pixel .m 1 (.adHoc "Size of pixel is unknown") rfl
